import Mathlib

/-!
Shallow embedding of the StratIQ dashboard query-orchestration layer.

Sources embedded:
- src/frontend/components/MarketSearch.tsx (selection handlers)
- src/frontend/app/dashboard/page.tsx (selection state, panel wiring)
- src/frontend/components/SWOTMatrix.tsx (SWOTMatrix and KPICards)
- src/frontend/components/TrendChart.tsx
- src/frontend/components/StrategicRecommendations.tsx
- src/unnamed/part_001 (AISummary)
- src/frontend/app/providers.tsx (query client default options)

JavaScript values of type `string | null` are embedded as `Option String`;
JS truthiness of such a value (empty string and null are falsy) is made
explicit in `truthyOrNull`. Numbers are embedded as rationals. Missing
object fields (undefined) are embedded as `none` of an `Option`.
-/

namespace StratIQ

/-- Truthiness of a JS `string | null` value: null and the empty string are falsy. -/
def truthyOrNull : Option String → Bool
  | none => false
  | some s => s ≠ ""

/-- JS `a || b` for an optional string against a string default
(used for `insights?.summary || "No insights available"`). -/
def jsOrStr (a : Option String) (b : String) : String :=
  match a with
  | none => b
  | some s => if s = "" then b else s

/-- JS `a || b` for an optional number against a number default
(0 is falsy, so a present 0 also falls through to the default). -/
def jsOrQ (a : Option ℚ) (b : ℚ) : ℚ :=
  match a with
  | none => b
  | some x => if x = 0 then b else x

/-! ## Selection state (dashboard/page.tsx and MarketSearch.tsx)

`DashboardPage` holds `selectedIndustry` and `selectedCompany`, both
`useState<string | null>(null)`. `MarketSearch` mutates them through
`onIndustrySelect` / `onCompanySelect`. -/

/-- The selection state of the dashboard page: `selectedIndustry` and
`selectedCompany`, both initially null. -/
structure Selection where
  selectedIndustry : Option String
  selectedCompany : Option String
deriving DecidableEq, Repr

/-- Initial state on mount: both `useState` calls start at null. -/
def initialSelection : Selection := ⟨none, none⟩

/-- The user-interface events of `MarketSearch` that mutate the page selection:
the industry select box `onChange`, the company select box `onChange`, and the
two mode buttons (both of which reset the selection to null/null). -/
inductive SearchOp where
  | industryChange (value : String)
  | companyChange (value : String)
  | industryTabClick
  | companyTabClick
deriving DecidableEq, Repr

/-- Handler `handleIndustryChange` (MarketSearch.tsx lines 55-69): when the value is
truthy it calls `onIndustrySelect(value)` and `onCompanySelect(null)`,
otherwise it nulls both. -/
def handleIndustryChange (_s : Selection) (value : String) : Selection :=
  if value ≠ "" then ⟨some value, none⟩
  else ⟨none, none⟩

/-- Handler `handleCompanyChange` (MarketSearch.tsx lines 71-81): when `value.trim()`
is truthy it calls `onCompanySelect(value.trim())` and `onIndustrySelect(null)`,
otherwise it nulls both. The unused state argument mirrors that the handler
ignores the previous selection. -/
def handleCompanyChange (_s : Selection) (value : String) : Selection :=
  if value.trim ≠ "" then ⟨none, some value.trim⟩
  else ⟨none, none⟩

/-- One selection event applied to the page state. The two tab buttons call
`onIndustrySelect(null)` and `onCompanySelect(null)` (MarketSearch.tsx
lines 92-96 and 107-111). -/
def applySearchOp (s : Selection) (op : SearchOp) : Selection :=
  match op with
  | .industryChange v => handleIndustryChange s v
  | .companyChange v => handleCompanyChange s v
  | .industryTabClick => ⟨none, none⟩
  | .companyTabClick => ⟨none, none⟩

/-- The selection reached from the mount state by a sequence of user events. -/
def runSearchOps (ops : List SearchOp) : Selection :=
  ops.foldl applySearchOp initialSelection

/-- Mutual exclusion: at most one of industry and company is set. -/
def selectionMutex (s : Selection) : Prop :=
  s.selectedIndustry = none ∨ s.selectedCompany = none

/-! ## API result shapes

Only the fields the components actually read are embedded; every field may be
absent in the JSON, hence `Option`. -/

/-- The error taxonomy of the request client (spec section 6): no response,
non-2xx status, malformed payload. -/
inductive ErrorInfo where
  | networkError
  | httpError (status : Nat)
  | decodeError
deriving DecidableEq, Repr

/-- Fields of `marketData.metrics` read by `KPICards` (SWOTMatrix.tsx
lines 110-116). -/
structure Metrics where
  growth_rate : Option ℚ
  funding_volume : Option ℚ
  market_size : Option ℚ
deriving DecidableEq, Repr

/-- The market-metrics response: `marketData?.metrics` may be absent. -/
structure MarketData where
  metrics : Option Metrics
deriving DecidableEq, Repr

/-- The four quadrant lists of `strategy?.content`, each possibly absent. -/
structure SwotContent where
  strengths : Option (List String)
  weaknesses : Option (List String)
  opportunities : Option (List String)
  threats : Option (List String)
deriving DecidableEq, Repr

/-- The strategy response: `content` read by `SWOTMatrix`, `recommendations`
read by `StrategicRecommendations`. -/
structure StrategyResponse where
  content : Option SwotContent
  recommendations : Option (List String)
deriving DecidableEq, Repr

/-- The insights response read by `AISummary`. -/
structure InsightsResponse where
  summary : Option String
  key_takeaways : Option (List String)
deriving DecidableEq, Repr

/-- One item of `forecast.forecast` as read by `TrendChart`: `item.yhat` and
`item.value` may each be absent. -/
structure ForecastItem where
  yhat : Option ℚ
  value : Option ℚ
deriving DecidableEq, Repr

/-- The forecast response: the `forecast` array may be absent. -/
structure ForecastResponse where
  forecast : Option (List ForecastItem)
deriving DecidableEq, Repr

/-- One point of the transformed chart data (TrendChart.tsx lines 30-33). -/
structure ChartPoint where
  month : Nat
  value : ℚ
deriving DecidableEq, Repr

/-! ## Query keys

Each `useQuery` call passes a JS array as `queryKey`; the arrays mix string
literals, nullable strings and (for insights) the metrics object. React Query
compares keys by deep structural equality, embedded here as equality of
`QueryKey`. -/

/-- An element of a query-key array. -/
inductive KeyAtom where
  | str (s : String)
  | optStr (o : Option String)
  | metricsAtom (m : Option Metrics)
deriving DecidableEq, Repr

/-- A query key: the ordered array passed as `queryKey`. Two keys are equal
iff all elements are deep-equal. -/
abbrev QueryKey := List KeyAtom

/-- The `KPICards` market query key `["market", industry, company]`
(SWOTMatrix.tsx line 105). -/
def KPICards.marketQueryKey (industry company : Option String) : QueryKey :=
  [.str "market", .optStr industry, .optStr company]

/-- The `AISummary` market query key `["market", industry, company]`
(part_001 line 15). -/
def AISummary.marketQueryKey (industry company : Option String) : QueryKey :=
  [.str "market", .optStr industry, .optStr company]

/-- The `AISummary` insights query key
`["insights", industry, company, marketData?.metrics]` (part_001 line 22). -/
def AISummary.insightsQueryKey (industry company : Option String)
    (metrics : Option Metrics) : QueryKey :=
  [.str "insights", .optStr industry, .optStr company, .metricsAtom metrics]

/-- The `SWOTMatrix` strategy query key `["strategy", "swot", industry, company]`
(SWOTMatrix.tsx line 14). -/
def SWOTMatrix.strategyQueryKey (industry company : Option String) : QueryKey :=
  [.str "strategy", .str "swot", .optStr industry, .optStr company]

/-- The `StrategicRecommendations` strategy query key
`["strategy", "growth", industry, company]`
(StrategicRecommendations.tsx line 17). -/
def StrategicRecommendations.strategyQueryKey
    (industry company : Option String) : QueryKey :=
  [.str "strategy", .str "growth", .optStr industry, .optStr company]

/-- The `TrendChart` forecast query key `["forecast", industry, company]`
(TrendChart.tsx line 15). -/
def TrendChart.forecastQueryKey (industry company : Option String) : QueryKey :=
  [.str "forecast", .optStr industry, .optStr company]

/-! ## Enablement flags

Every `useQuery` in the repository guards its fetch with
`enabled: !!(industry || company)`; the insights query additionally requires
`!!marketData`. -/

/-- The `KPICards` market query enablement `!!(industry || company)`
(SWOTMatrix.tsx line 107). -/
def KPICards.marketEnabled (industry company : Option String) : Bool :=
  truthyOrNull industry || truthyOrNull company

/-- The `AISummary` market query enablement `!!(industry || company)`
(part_001 line 17). -/
def AISummary.marketEnabled (industry company : Option String) : Bool :=
  truthyOrNull industry || truthyOrNull company

/-- The `AISummary` insights query enablement
`!!(industry || company) && !!marketData` (part_001 line 28): `marketData` is
the data of the market query, absent until that query has resolved to
Success. -/
def AISummary.insightsEnabled (industry company : Option String)
    (marketData : Option MarketData) : Bool :=
  (truthyOrNull industry || truthyOrNull company) && marketData.isSome

/-- The `SWOTMatrix` strategy query enablement `!!(industry || company)`
(SWOTMatrix.tsx line 16). -/
def SWOTMatrix.strategyEnabled (industry company : Option String) : Bool :=
  truthyOrNull industry || truthyOrNull company

/-- The `StrategicRecommendations` strategy query enablement
`!!(industry || company)` (StrategicRecommendations.tsx line 19). -/
def StrategicRecommendations.strategyEnabled
    (industry company : Option String) : Bool :=
  truthyOrNull industry || truthyOrNull company

/-- The `TrendChart` forecast query enablement `!!(industry || company)`
(TrendChart.tsx line 39). -/
def TrendChart.forecastEnabled (industry company : Option String) : Bool :=
  truthyOrNull industry || truthyOrNull company

/-! ## The keyed query cache

React Query stores, per query key, the latest result of that key; a settled
fetch writes to the entry of the key it was issued for, and an observer only
ever reads the entry of its own current key. The cache is embedded as a map
from keys to entries. -/

/-- Status of a cache entry. -/
inductive QueryStatus where
  | idle
  | loading
  | success
  | failure
deriving DecidableEq, Repr

/-- The heterogeneous payloads the cache can hold, one constructor per data
product of the dashboard. -/
inductive ApiResult where
  | market (d : MarketData)
  | strategy (s : StrategyResponse)
  | insights (r : InsightsResponse)
  | forecastResult (l : List ChartPoint)
deriving DecidableEq, Repr

/-- One cache entry: status plus the latest value or error. -/
structure QueryEntry where
  status : QueryStatus
  value : Option ApiResult
  error : Option ErrorInfo
deriving DecidableEq, Repr

/-- The cache: a map from query keys to entries; a key never subscribed to
has no entry. -/
def Cache : Type := QueryKey → Option QueryEntry

/-- A fetch issued for key `k` resolves: the Success result is written to the
entry for `k` and to no other entry. -/
def resolveSuccess (c : Cache) (k : QueryKey) (v : ApiResult) : Cache :=
  fun k2 => if k2 = k then some ⟨.success, some v, none⟩ else c k2

/-- A fetch issued for key `k` rejects: the Failure is written to the entry
for `k` and to no other entry. -/
def resolveFailure (c : Cache) (k : QueryKey) (e : ErrorInfo) : Cache :=
  fun k2 => if k2 = k then some ⟨.failure, none, some e⟩ else c k2

/-- The data an observer of the market query at the given selection sees: the
value of the entry at its own current key, and nothing else. -/
def marketDataSeen (c : Cache) (industry company : Option String) :
    Option QueryEntry :=
  c (KPICards.marketQueryKey industry company)

/-- The data an observer of the insights query sees at its current key. -/
def insightsDataSeen (c : Cache) (industry company : Option String)
    (metrics : Option Metrics) : Option QueryEntry :=
  c (AISummary.insightsQueryKey industry company metrics)

/-! ## The Cache Store step relation

Modelled from the spec: the Cache Store subscribe/resolve semantics
(spec sections 4.2 and 7). The store implementation (the query client
library) is not among the repository sources; only its configuration
(providers.tsx) and its call sites are. Per section 4.2, a subscription to a
key whose entry is absent (Idle) transitions it to Loading and invokes the
fetcher exactly once; a subscription to an existing Loading or Success entry
reuses it with no further fetch. Per section 7, the store never retries: a
rejected fetch leaves a Failure entry and only a user action producing a new
key (hence a fresh Idle entry) leads to a fresh attempt. -/

/-- Events on one cache entry: an observer subscribes, or the in-flight fetch
settles (resolve or reject). -/
inductive StoreEvent where
  | subscribe
  | resolveOk
  | resolveErr
deriving DecidableEq, Repr

/-- One step of a cache entry under an event. The boolean records whether
this step invoked the fetcher. Modelled from the spec (sections 4.2 and 7):
only the first subscription, finding the entry Idle, invokes the fetcher. -/
def stepEntry (s : QueryStatus) (e : StoreEvent) : QueryStatus × Bool :=
  match s, e with
  | .idle, .subscribe => (.loading, true)
  | .loading, .resolveOk => (.success, false)
  | .loading, .resolveErr => (.failure, false)
  | s, _ => (s, false)

/-- A subscription gated by the `enabled` flag of `useQuery`: a disabled
query is never submitted to the store, so its entry is untouched and the
fetcher is not invoked. -/
def gatedSubscribe (enabled : Bool) (s : QueryStatus) : QueryStatus × Bool :=
  if enabled then stepEntry s .subscribe else (s, false)

/-- Running a sequence of events over one entry, counting fetcher
invocations. -/
def runEntry (s : QueryStatus) : List StoreEvent → QueryStatus × Nat
  | [] => (s, 0)
  | e :: es =>
    let step := stepEntry s e
    let rest := runEntry step.1 es
    (rest.1, (if step.2 then 1 else 0) + rest.2)

/-- The query client default options set in providers.tsx lines 9-18. No
retry option is set there; the retry behaviour itself belongs to the query
client library, which is outside the repository sources. -/
structure QueryClientDefaults where
  staleTime : Nat
  refetchOnWindowFocus : Bool
  refetchOnMount : Bool
  refetchOnReconnect : Bool
deriving DecidableEq, Repr

/-- The concrete defaults from providers.tsx. -/
def providersDefaults : QueryClientDefaults :=
  ⟨0, false, true, true⟩

/-! ## KPICards local state and display (SWOTMatrix.tsx lines 97-143) -/

/-- The local KPI state of `KPICards`: three plain numbers, never absent. -/
structure KPIs where
  growthRate : ℚ
  fundingVolume : ℚ
  marketSize : ℚ
deriving DecidableEq, Repr

/-- The `useState` initial KPI values (SWOTMatrix.tsx lines 98-102). -/
def initialKPIs : KPIs := ⟨0, 0, 0⟩

/-- The `useEffect` body of `KPICards` (SWOTMatrix.tsx lines 110-125): when
`marketData?.metrics` is present, each KPI is set to the field value with
`|| 0` defaulting; otherwise, when no selection is active, the KPIs are
reset to zero; otherwise the previous KPIs are kept. -/
def KPICards.kpiEffect (marketData : Option MarketData)
    (industry company : Option String) (old : KPIs) : KPIs :=
  match marketData.bind (fun d => d.metrics) with
  | some m =>
    ⟨jsOrQ m.growth_rate 0, jsOrQ m.funding_volume 0, jsOrQ m.market_size 0⟩
  | none =>
    if !truthyOrNull industry && !truthyOrNull company then ⟨0, 0, 0⟩
    else old

/-- The numeric values entering the three card formatting expressions
(SWOTMatrix.tsx lines 127-143): `kpis.growthRate.toFixed(1)`,
`(kpis.fundingVolume / 1000000).toFixed(1)`,
`(kpis.marketSize / 1000000000).toFixed(1)`. All three are total on `KPIs`:
every field is a number, never absent. -/
def KPICards.cardValues (k : KPIs) : ℚ × ℚ × ℚ :=
  (k.growthRate, k.fundingVolume / 1000000, k.marketSize / 1000000000)

/-! ## TrendChart query function (TrendChart.tsx lines 16-38)

The `queryFn` first returns the empty list when no selection is active, then
awaits the API call inside a try/catch: the catch clause maps every thrown
error to the empty list. The outcome of the API call is passed in as an
explicit parameter. -/

/-- Outcome of one request-client call: a parsed result or a typed failure. -/
inductive ApiOutcome (α : Type) where
  | ok (v : α)
  | err (e : ErrorInfo)
deriving DecidableEq, Repr

/-- The transformation of a forecast response into chart data
(TrendChart.tsx lines 30-33):
`forecast.forecast?.slice(0, 12).map((item, index) => ({ month: index + 1,
value: item.yhat || item.value || 0 })) || []`. -/
def transformForecast (resp : ForecastResponse) : List ChartPoint :=
  match resp.forecast with
  | none => []
  | some items =>
    (items.take 12).enum.map (fun p => ⟨p.1 + 1, jsOrQ p.2.yhat (jsOrQ p.2.value 0)⟩)

/-- The body of the `queryFn` without the catch clause: the early return for
an empty selection, then the awaited API call (which may throw) followed by
the transformation. -/
def TrendChart.forecastFetchRaw (industry company : Option String)
    (outcome : ApiOutcome ForecastResponse) :
    Except ErrorInfo (List ChartPoint) :=
  if !truthyOrNull industry && !truthyOrNull company then .ok []
  else
    match outcome with
    | .ok resp => .ok (transformForecast resp)
    | .err e => .error e

/-- The full `queryFn` of `TrendChart`: the try/catch wrapper resolves every
thrown error to the empty list, so the returned promise never rejects. -/
def TrendChart.forecastQueryFn (industry company : Option String)
    (outcome : ApiOutcome ForecastResponse) :
    Except ErrorInfo (List ChartPoint) :=
  match TrendChart.forecastFetchRaw industry company outcome with
  | .ok l => .ok l
  | .error _ => .ok []

/-! ## Panel render functions

Each panel component first returns its empty prompt when neither industry nor
company is truthy, then branches on `isLoading`, then renders from the query
data with `|| fallback` defaults. The render result is embedded as a small
view datatype per panel. -/

/-- What the SWOT panel shows. -/
inductive SwotView where
  | emptyPrompt
  | loading
  | grid (strengths weaknesses opportunities threats : List String)
deriving DecidableEq, Repr

/-- The `{}` object used by `strategy?.content || {}`: all fields absent. -/
def emptySwotContent : SwotContent := ⟨none, none, none, none⟩

/-- The `SWOTMatrix` rendering (SWOTMatrix.tsx lines 19-80): empty prompt when no
selection, loading text while `isLoading`, otherwise the four quadrants from
`swotData = strategy?.content || {}` with `(swotData.X || [])` per
quadrant. -/
def SWOTMatrix.render (industry company : Option String)
    (strategy : Option StrategyResponse) (isLoading : Bool) : SwotView :=
  if !truthyOrNull industry && !truthyOrNull company then .emptyPrompt
  else if isLoading then .loading
  else
    let swotData := (strategy.bind (fun s => s.content)).getD emptySwotContent
    .grid (swotData.strengths.getD []) (swotData.weaknesses.getD [])
      (swotData.opportunities.getD []) (swotData.threats.getD [])

/-- What the trend panel shows. -/
inductive TrendView where
  | emptyPrompt
  | loading
  | chart (data : Option (List ChartPoint)) (yAxisLabel : String)
deriving DecidableEq, Repr

/-- The `TrendChart` rendering (TrendChart.tsx lines 42-92): empty prompt when no
selection, loading text while `isLoading`, otherwise the chart over
`forecastData` with the Y-axis label chosen by company truthiness. -/
def TrendChart.render (industry company : Option String)
    (forecastData : Option (List ChartPoint)) (isLoading : Bool) : TrendView :=
  if !truthyOrNull industry && !truthyOrNull company then .emptyPrompt
  else if isLoading then .loading
  else .chart forecastData
    (if truthyOrNull company then "Stock Price ($)" else "Growth Index")

/-- What the recommendations panel shows. -/
inductive RecommendationsView where
  | emptyPrompt
  | loading
  | list (recommendations : List String)
deriving DecidableEq, Repr

/-- The `StrategicRecommendations` rendering (StrategicRecommendations.tsx
lines 22-61): empty prompt when no selection, loading text while
`isLoading`, otherwise the list `strategy?.recommendations || []`. -/
def StrategicRecommendations.render (industry company : Option String)
    (strategy : Option StrategyResponse) (isLoading : Bool) :
    RecommendationsView :=
  if !truthyOrNull industry && !truthyOrNull company then .emptyPrompt
  else if isLoading then .loading
  else .list ((strategy.bind (fun s => s.recommendations)).getD [])

/-- What the insights panel shows. -/
inductive InsightsView where
  | emptyPrompt
  | loading
  | content (summary : String) (takeaways : List String)
deriving DecidableEq, Repr

/-- The `AISummary` rendering (part_001 lines 31-71): empty prompt when no
selection, loading text while `isLoading`, otherwise the summary with
`insights?.summary || "No insights available"` and the takeaways list
`insights?.key_takeaways` (shown when nonempty; embedded as the list with
`[]` for absent). -/
def AISummary.render (industry company : Option String)
    (insights : Option InsightsResponse) (isLoading : Bool) : InsightsView :=
  if !truthyOrNull industry && !truthyOrNull company then .emptyPrompt
  else if isLoading then .loading
  else .content (jsOrStr (insights.bind (fun r => r.summary)) "No insights available")
    ((insights.bind (fun r => r.key_takeaways)).getD [])

/-! ## Selection notifications

`handleIndustryChange` and `handleCompanyChange` call the two page-level
state setters. Modelled from the spec (section 4.1) together with the host
state hook semantics, which are not among the repository sources: a state
update whose new value structurally equals the current one is bailed out,
and the updates of one handler call are batched, so the observers (the panel
subtree) receive one notification per handler call exactly when the
selection actually changed. -/

/-- Applying one selection event and reporting whether observers were
notified: a notification happens iff the resulting selection differs from
the previous one. -/
def notifySearchOp (s : Selection) (op : SearchOp) : Selection × Bool :=
  let s2 := applySearchOp s op
  (s2, s2 ≠ s)

/-- The number of notifications produced by two successive events. -/
def notifyCountTwo (s : Selection) (op1 op2 : SearchOp) : Nat :=
  let r1 := notifySearchOp s op1
  let r2 := notifySearchOp r1.1 op2
  (if r1.2 then 1 else 0) + (if r2.2 then 1 else 0)

/-! ## Helper lemmas -/

/-- The shape of any selection produced by a selection event: empty, or
exactly one side set to a nonempty string. -/
def reachableShape (s : Selection) : Prop :=
  s = ⟨none, none⟩ ∨
  (∃ v, v ≠ "" ∧ s = ⟨some v, none⟩) ∨
  (∃ v, v ≠ "" ∧ s = ⟨none, some v⟩)

theorem applySearchOp_shape (s : Selection) (op : SearchOp) :
    reachableShape (applySearchOp s op) := by
  cases op with
  | industryChange v =>
    by_cases hv : v = ""
    · left
      simp [applySearchOp, handleIndustryChange, hv]
    · right; left
      exact ⟨v, hv, by simp [applySearchOp, handleIndustryChange, hv]⟩
  | companyChange v =>
    by_cases hv : v.trim = ""
    · left
      simp [applySearchOp, handleCompanyChange, hv]
    · right; right
      exact ⟨v.trim, hv, by simp [applySearchOp, handleCompanyChange, hv]⟩
  | industryTabClick => left; rfl
  | companyTabClick => left; rfl

theorem foldl_searchOps_shape (ops : List SearchOp) (s : Selection)
    (hs : reachableShape s) :
    reachableShape (ops.foldl applySearchOp s) := by
  induction ops generalizing s with
  | nil => exact hs
  | cons op ops ih => exact ih (applySearchOp s op) (applySearchOp_shape s op)

theorem runSearchOps_shape (ops : List SearchOp) :
    reachableShape (runSearchOps ops) :=
  foldl_searchOps_shape ops initialSelection (Or.inl rfl)

theorem runEntry_failure (es : List StoreEvent) :
    runEntry QueryStatus.failure es = (QueryStatus.failure, 0) := by
  induction es with
  | nil => rfl
  | cons e es ih =>
    have hstep : stepEntry QueryStatus.failure e = (QueryStatus.failure, false) := by
      cases e <;> rfl
    simp [runEntry, hstep, ih]

/-! ## Claim theorems -/

/-- C4. Selection mutual exclusion invariant: after every selection
operation, at most one of industry and company is non-null. Selecting a
truthy industry sets industry and clears company; selecting a company with
truthy trimmed value sets company and clears industry; an empty value
clears both; the mount state and every reachable state satisfy the
invariant. -/
theorem selection_mutual_exclusion :
    selectionMutex initialSelection
    ∧ (∀ (s : Selection) (v : String), v ≠ "" →
        applySearchOp s (SearchOp.industryChange v) = ⟨some v, none⟩)
    ∧ (∀ (s : Selection) (v : String), v.trim ≠ "" →
        applySearchOp s (SearchOp.companyChange v) = ⟨none, some v.trim⟩)
    ∧ (∀ (s : Selection), applySearchOp s (SearchOp.industryChange "") = ⟨none, none⟩)
    ∧ (∀ (s : Selection) (op : SearchOp), selectionMutex (applySearchOp s op))
    ∧ (∀ (ops : List SearchOp), selectionMutex (runSearchOps ops)) := by
  refine ⟨Or.inl rfl, ?_, ?_, ?_, ?_, ?_⟩
  · intro s v hv
    simp [applySearchOp, handleIndustryChange, hv]
  · intro s v hv
    simp [applySearchOp, handleCompanyChange, hv]
  · intro s
    simp [applySearchOp, handleIndustryChange]
  · intro s op
    rcases applySearchOp_shape s op with h | ⟨v, _, h⟩ | ⟨v, _, h⟩ <;>
      simp [selectionMutex, h]
  · intro ops
    rcases runSearchOps_shape ops with h | ⟨v, _, h⟩ | ⟨v, _, h⟩ <;>
      simp [selectionMutex, h]

/-- Witness for C4 at concrete inputs: selecting the industry Technology
from the mount state sets industry and clears company, and the reachable
state after that event satisfies the mutual-exclusion invariant. -/
theorem selection_mutual_exclusion_witness :
    applySearchOp initialSelection (SearchOp.industryChange "Technology")
      = ⟨some "Technology", none⟩
    ∧ selectionMutex (runSearchOps [SearchOp.industryChange "Technology"]) :=
  ⟨selection_mutual_exclusion.2.1 initialSelection "Technology" (by decide),
   selection_mutual_exclusion.2.2.2.2.2 [SearchOp.industryChange "Technology"]⟩

/-- C8. Selection idempotence: applying the same selection event twice in
succession never notifies on the second application (the handlers ignore the
previous state, so the second application leaves the selection unchanged);
two successive identical events produce at most one notification, and
exactly one when the first event actually changed the selection. -/
theorem select_idempotent (s : Selection) (op : SearchOp) :
    (notifySearchOp (notifySearchOp s op).1 op).2 = false
    ∧ notifyCountTwo s op op ≤ 1
    ∧ (applySearchOp s op ≠ s → notifyCountTwo s op op = 1) := by
  have hidem : applySearchOp (applySearchOp s op) op = applySearchOp s op := by
    cases op <;> rfl
  have hsecond : (notifySearchOp (notifySearchOp s op).1 op).2 = false := by
    simp [notifySearchOp, hidem]
  refine ⟨hsecond, ?_, ?_⟩
  · by_cases hch : applySearchOp s op = s <;>
      simp [notifyCountTwo, notifySearchOp, hidem, hch]
  · intro hch
    simp [notifyCountTwo, notifySearchOp, hidem, hch]

/-- Witness for C8 at a concrete input: selecting the industry Technology
twice from the mount state produces exactly one notification, and the
second application produces none. -/
theorem select_idempotent_witness :
    notifyCountTwo initialSelection (SearchOp.industryChange "Technology")
      (SearchOp.industryChange "Technology") = 1
    ∧ (notifySearchOp
        (notifySearchOp initialSelection (SearchOp.industryChange "Technology")).1
        (SearchOp.industryChange "Technology")).2 = false :=
  ⟨(select_idempotent initialSelection (SearchOp.industryChange "Technology")).2.2
     (by decide),
   (select_idempotent initialSelection (SearchOp.industryChange "Technology")).1⟩

/-- C2. No automatic retries: in the Cache Store step relation, the fetcher
is invoked exactly at a subscription finding the entry Idle; in particular a
rejected fetch leaves the entry in Failure, and from Failure no sequence of
further events on that entry ever invokes the fetcher again or leaves the
Failure status — only a selection change, which produces a new key with a
fresh Idle entry, leads to a fresh attempt. -/
theorem no_automatic_retries :
    (∀ (s : QueryStatus) (e : StoreEvent),
      (stepEntry s e).2 = true ↔ (s = QueryStatus.idle ∧ e = StoreEvent.subscribe))
    ∧ (stepEntry QueryStatus.loading StoreEvent.resolveErr
        = (QueryStatus.failure, false))
    ∧ (∀ (es : List StoreEvent),
        (runEntry QueryStatus.failure es).2 = 0
        ∧ (runEntry QueryStatus.failure es).1 = QueryStatus.failure) := by
  refine ⟨?_, rfl, ?_⟩
  · intro s e
    cases s <;> cases e <;> simp [stepEntry]
  · intro es
    simp [runEntry_failure es]

/-- C3. Dedup by key equality: query-key equality is an equivalence
relation; KPICards and AISummary derive equal market query keys from
identical selection inputs; and two subscriptions to the same key execute
exactly one fetch (the second finds the entry Loading and reuses it). -/
theorem query_key_dedup :
    Equivalence (fun k1 k2 : QueryKey => k1 = k2)
    ∧ (∀ (industry company : Option String),
        KPICards.marketQueryKey industry company
          = AISummary.marketQueryKey industry company)
    ∧ runEntry QueryStatus.idle [StoreEvent.subscribe, StoreEvent.subscribe]
        = (QueryStatus.loading, 1) := by
  exact ⟨⟨fun _ => rfl, fun h => h.symm, fun h1 h2 => h1.trans h2⟩,
    fun _ _ => rfl, rfl⟩

/-- C5. Disabling on empty selection: with both industry and company null,
every query of every product reports enabled = false, a disabled
subscription leaves the entry untouched and never invokes the fetcher, each
prompt panel shows its empty select-an-industry-or-company state regardless
of the loading flag, and the KPI effect resets the KPI cards to their zero
state. -/
theorem disabled_on_empty_selection :
    KPICards.marketEnabled none none = false
    ∧ AISummary.marketEnabled none none = false
    ∧ (∀ (md : Option MarketData), AISummary.insightsEnabled none none md = false)
    ∧ SWOTMatrix.strategyEnabled none none = false
    ∧ StrategicRecommendations.strategyEnabled none none = false
    ∧ TrendChart.forecastEnabled none none = false
    ∧ (∀ (s : QueryStatus), gatedSubscribe false s = (s, false))
    ∧ (∀ (strategy : Option StrategyResponse) (isLoading : Bool),
        SWOTMatrix.render none none strategy isLoading = SwotView.emptyPrompt)
    ∧ (∀ (fd : Option (List ChartPoint)) (isLoading : Bool),
        TrendChart.render none none fd isLoading = TrendView.emptyPrompt)
    ∧ (∀ (strategy : Option StrategyResponse) (isLoading : Bool),
        StrategicRecommendations.render none none strategy isLoading
          = RecommendationsView.emptyPrompt)
    ∧ (∀ (insights : Option InsightsResponse) (isLoading : Bool),
        AISummary.render none none insights isLoading = InsightsView.emptyPrompt)
    ∧ (∀ (old : KPIs), KPICards.kpiEffect none none none old = initialKPIs) := by
  refine ⟨rfl, rfl, fun md => ?_, rfl, rfl, rfl, fun s => rfl,
    fun strategy isLoading => rfl, fun fd isLoading => rfl,
    fun strategy isLoading => rfl, fun insights isLoading => rfl,
    fun old => rfl⟩
  simp [AISummary.insightsEnabled, truthyOrNull]

/-- C6. Dependent enablement for insights: over every reachable selection,
the insights query is enabled iff the selection is not the empty one and the
market-metrics data has resolved; and while the market data is absent
(including after a market-metrics failure, which leaves the data absent),
the gated subscription never invokes the insights fetcher. -/
theorem insights_dependent_enablement (ops : List SearchOp)
    (md : Option MarketData) (st : QueryStatus) :
    (AISummary.insightsEnabled (runSearchOps ops).selectedIndustry
        (runSearchOps ops).selectedCompany md = true
      ↔ (runSearchOps ops ≠ (⟨none, none⟩ : Selection) ∧ md.isSome = true))
    ∧ (md = none →
        gatedSubscribe (AISummary.insightsEnabled (runSearchOps ops).selectedIndustry
          (runSearchOps ops).selectedCompany md) st = (st, false)) := by
  constructor
  · rcases runSearchOps_shape ops with h | ⟨v, hv, h⟩ | ⟨v, hv, h⟩
    · simp [h, AISummary.insightsEnabled, truthyOrNull]
    · simp [h, AISummary.insightsEnabled, truthyOrNull, hv]
    · simp [h, AISummary.insightsEnabled, truthyOrNull, hv]
  · intro hmd
    subst hmd
    simp [AISummary.insightsEnabled, gatedSubscribe]

/-- Witness for C6 at a concrete input: after selecting the industry
Technology, with the market data still unresolved, the insights query is
disabled and its gated subscription leaves an Idle entry untouched without
invoking the fetcher. -/
theorem insights_dependent_enablement_witness :
    gatedSubscribe (AISummary.insightsEnabled
        (runSearchOps [SearchOp.industryChange "Technology"]).selectedIndustry
        (runSearchOps [SearchOp.industryChange "Technology"]).selectedCompany none)
      QueryStatus.idle = (QueryStatus.idle, false) :=
  (insights_dependent_enablement [SearchOp.industryChange "Technology"]
    none QueryStatus.idle).2 rfl

/-- C7. Total numeric display with zero defaults: when the market metrics
are present but a numeric field is absent, the corresponding KPI set by the
KPICards effect is 0; with all three fields absent the three card formatting
inputs are all the number 0, so formatting is total and never sees an
absent value. -/
theorem kpi_zero_defaults (marketData : Option MarketData)
    (industry company : Option String) (old : KPIs) (m : Metrics)
    (hm : marketData.bind (fun d => d.metrics) = some m) :
    (m.growth_rate = none →
      (KPICards.kpiEffect marketData industry company old).growthRate = 0)
    ∧ (m.funding_volume = none →
      (KPICards.kpiEffect marketData industry company old).fundingVolume = 0)
    ∧ (m.market_size = none →
      (KPICards.kpiEffect marketData industry company old).marketSize = 0)
    ∧ (m.growth_rate = none ∧ m.funding_volume = none ∧ m.market_size = none →
      KPICards.cardValues (KPICards.kpiEffect marketData industry company old)
        = (0, 0, 0)) := by
  refine ⟨fun h => ?_, fun h => ?_, fun h => ?_, fun h => ?_⟩
  · simp [KPICards.kpiEffect, hm, h, jsOrQ]
  · simp [KPICards.kpiEffect, hm, h, jsOrQ]
  · simp [KPICards.kpiEffect, hm, h, jsOrQ]
  · obtain ⟨h1, h2, h3⟩ := h
    simp [KPICards.kpiEffect, KPICards.cardValues, hm, h1, h2, h3, jsOrQ]

/-- Witness for C7 at a concrete input: a market response whose metrics
object has all three numeric fields absent yields 0 for every card value. -/
theorem kpi_zero_defaults_witness :
    KPICards.cardValues (KPICards.kpiEffect
      (some ⟨some ⟨none, none, none⟩⟩) (some "Technology") none initialKPIs)
      = (0, 0, 0) :=
  (kpi_zero_defaults (some ⟨some ⟨none, none, none⟩⟩) (some "Technology") none
    initialKPIs ⟨none, none, none⟩ rfl).2.2.2 ⟨rfl, rfl, rfl⟩

/-- C1. Stale-key guard: a market-metrics fetch issued for one selection
resolves into the cache entry of its own key only; for any distinct
selection the entry observed under the new selection (hence the data the
panels keyed to the new selection render) is unchanged by the late
resolution for the old key. -/
theorem stale_key_guard (i1 c1 i2 c2 : Option String) (cache : Cache)
    (v : ApiResult) (hne : (i1, c1) ≠ (i2, c2)) :
    marketDataSeen (resolveSuccess cache (KPICards.marketQueryKey i1 c1) v) i2 c2
      = marketDataSeen cache i2 c2 := by
  have hk : KPICards.marketQueryKey i2 c2 ≠ KPICards.marketQueryKey i1 c1 := by
    intro h
    simp [KPICards.marketQueryKey] at h
    exact hne (by simp [h.1, h.2])
  simp [marketDataSeen, resolveSuccess, hk]

/-- Witness for C1 at the concrete scenario of the spec: the user selects
the company Apple, then the industry Finance before the Apple-keyed
market fetch resolves; in an initially empty cache the late Apple
resolution leaves the entry observed under the Finance selection
untouched. -/
theorem stale_key_guard_witness :
    marketDataSeen
      (resolveSuccess (fun _ => none) (KPICards.marketQueryKey none (some "Apple"))
        (ApiResult.market ⟨some ⟨some 1, some 2, some 3⟩⟩))
      (some "Finance") none = none :=
  (stale_key_guard none (some "Apple") (some "Finance") none (fun _ => none)
    (ApiResult.market ⟨some ⟨some 1, some 2, some 3⟩⟩) (by decide)).trans rfl

/-- C9. Failure locality: a rejected SWOT strategy fetch writes a Failure
entry at the SWOT key only; every insights entry (a different query key) is
unchanged; and under an active selection the SWOT panel, with no data and
not loading, renders the grid with all four quadrants empty. -/
theorem swot_failure_locality (industry company : Option String)
    (e : ErrorInfo) (cache : Cache)
    (hsel : (truthyOrNull industry || truthyOrNull company) = true) :
    (resolveFailure cache (SWOTMatrix.strategyQueryKey industry company) e)
        (SWOTMatrix.strategyQueryKey industry company)
      = some ⟨QueryStatus.failure, none, some e⟩
    ∧ (∀ (i2 c2 : Option String) (m : Option Metrics),
        insightsDataSeen
            (resolveFailure cache (SWOTMatrix.strategyQueryKey industry company) e)
            i2 c2 m
          = insightsDataSeen cache i2 c2 m)
    ∧ SWOTMatrix.render industry company none false
        = SwotView.grid [] [] [] [] := by
  refine ⟨by simp [resolveFailure], fun i2 c2 m => ?_, ?_⟩
  · have hk : AISummary.insightsQueryKey i2 c2 m
        ≠ SWOTMatrix.strategyQueryKey industry company := by
      simp [AISummary.insightsQueryKey, SWOTMatrix.strategyQueryKey]
    simp [insightsDataSeen, resolveFailure, hk]
  · have : (!truthyOrNull industry && !truthyOrNull company) = false := by
      rcases Bool.or_eq_true_iff.mp hsel with h | h <;> simp [h]
    simp [SWOTMatrix.render, this, emptySwotContent]

/-- Witness for C9 at the concrete scenario of the spec: the SWOT strategy
fetch for the industry Technology fails with HttpError 500; the failure is
recorded at the SWOT key, the insights entry for the same selection is
untouched, and the SWOT panel renders all four quadrants empty. -/
theorem swot_failure_locality_witness :
    (resolveFailure (fun _ => none)
        (SWOTMatrix.strategyQueryKey (some "Technology") none)
        (ErrorInfo.httpError 500))
        (SWOTMatrix.strategyQueryKey (some "Technology") none)
      = some ⟨QueryStatus.failure, none, some (ErrorInfo.httpError 500)⟩
    ∧ insightsDataSeen
        (resolveFailure (fun _ => none)
          (SWOTMatrix.strategyQueryKey (some "Technology") none)
          (ErrorInfo.httpError 500))
        (some "Technology") none none = none
    ∧ SWOTMatrix.render (some "Technology") none none false
        = SwotView.grid [] [] [] [] := by
  have h := swot_failure_locality (some "Technology") none
    (ErrorInfo.httpError 500) (fun _ => none) (by decide)
  exact ⟨h.1, (h.2.1 (some "Technology") none none).trans rfl, h.2.2⟩

/-- C10. The forecast fetcher never rejects: for every API outcome the
TrendChart queryFn resolves (an error outcome resolves to the empty list,
so the forecast query can never reach the Failure status); under an active
selection a success outcome resolves to the transformed response, which has
at most 12 points, point j carries month j + 1 and the value
`item.yhat || item.value || 0`, which is 0 when both fields are absent. -/
theorem forecast_never_rejects (industry company : Option String)
    (outcome : ApiOutcome ForecastResponse) :
    (TrendChart.forecastQueryFn industry company outcome).isOk = true
    ∧ (∀ (e : ErrorInfo), outcome = ApiOutcome.err e →
        TrendChart.forecastQueryFn industry company outcome = Except.ok [])
    ∧ (∀ (resp : ForecastResponse),
        (truthyOrNull industry || truthyOrNull company) = true →
        outcome = ApiOutcome.ok resp →
        TrendChart.forecastQueryFn industry company outcome
          = Except.ok (transformForecast resp))
    ∧ (∀ (resp : ForecastResponse), (transformForecast resp).length ≤ 12)
    ∧ (∀ (items : List ForecastItem) (j : Nat),
        (transformForecast ⟨some items⟩).get? j
          = ((items.take 12).get? j).map
              (fun item => ⟨j + 1, jsOrQ item.yhat (jsOrQ item.value 0)⟩))
    ∧ (∀ (item : ForecastItem), item.yhat = none → item.value = none →
        jsOrQ item.yhat (jsOrQ item.value 0) = 0) := by
  refine ⟨?_, ?_, ?_, ?_, ?_, ?_⟩
  · unfold TrendChart.forecastQueryFn
    cases TrendChart.forecastFetchRaw industry company outcome <;> rfl
  · intro e he
    subst he
    unfold TrendChart.forecastQueryFn TrendChart.forecastFetchRaw
    rcases hb : (!truthyOrNull industry && !truthyOrNull company) with _ | _ <;> simp [hb]
  · intro resp hsel hout
    subst hout
    have hb : (!truthyOrNull industry && !truthyOrNull company) = false := by
      rcases Bool.or_eq_true_iff.mp hsel with h | h <;> simp [h]
    unfold TrendChart.forecastQueryFn TrendChart.forecastFetchRaw
    simp [hb]
  · intro resp
    rcases resp with ⟨_ | items⟩
    · simp [transformForecast]
    · simp only [transformForecast, List.length_map, List.enum_length,
        List.length_take]
      exact min_le_left _ _
  · intro items j
    simp [transformForecast, List.get?_eq_getElem?, List.getElem?_map,
      List.getElem?_enum, Option.map_map]
    rfl
  · intro item h1 h2
    simp [h1, h2, jsOrQ]

/-- Witness for C10 at concrete inputs: for the industry Technology an
HttpError outcome resolves to the empty list, and a success outcome with a
single all-absent forecast item resolves to the single point of month 1 and
value 0. -/
theorem forecast_never_rejects_witness :
    TrendChart.forecastQueryFn (some "Technology") none
        (ApiOutcome.err (ErrorInfo.httpError 500)) = Except.ok []
    ∧ TrendChart.forecastQueryFn (some "Technology") none
        (ApiOutcome.ok ⟨some [⟨none, none⟩]⟩)
      = Except.ok (transformForecast ⟨some [⟨none, none⟩]⟩)
    ∧ (transformForecast ⟨some [⟨none, none⟩]⟩).get? 0 = some ⟨1, 0⟩ := by
  refine ⟨(forecast_never_rejects (some "Technology") none
      (ApiOutcome.err (ErrorInfo.httpError 500))).2.1 (ErrorInfo.httpError 500) rfl,
    (forecast_never_rejects (some "Technology") none
      (ApiOutcome.ok ⟨some [⟨none, none⟩]⟩)).2.2.1 ⟨some [⟨none, none⟩]⟩
      (by decide) rfl, ?_⟩
  have h := (forecast_never_rejects (some "Technology") none
    (ApiOutcome.ok ⟨some [⟨none, none⟩]⟩)).2.2.2.2.1 [⟨none, none⟩] 0
  simpa [jsOrQ] using h

end StratIQ
